import Mathlib

/-!
Shallow embedding of the Taskmaster Django backend
(src/Backend/tasks/{models,serializers,views,urls}.py) and proofs about its
behaviour.  Stateful endpoint handlers are embedded as explicit
state-passing functions `Store → ... → Response × Store`; fallible steps
return `Option`.  Wire-level details that the repository delegates to its
frameworks (Django / Django REST Framework) are embedded with the
documented semantics of those primitives, noted at each definition.
-/

namespace Taskmaster

/-- Priority choices of `Task.priority` (models.py, `choices` low/medium/high,
default medium). -/
inductive Priority
  | low
  | medium
  | high
deriving Repr, DecidableEq

/-- Status choices of `Task.status` (models.py, `choices`
pending/in_progress/completed, default pending). -/
inductive Status
  | pending
  | in_progress
  | completed
deriving Repr, DecidableEq

/-- A user row (models.py `User`): primary key, unique username, email and
the stored password hash.  Fields irrelevant to the claims (names, picture)
are omitted. -/
structure User where
  id : Nat
  username : String
  email : String
  password : String
deriving Repr, DecidableEq

/-- A category row (models.py `Category`): `name = CharField(max_length=100,
unique=True)`. -/
structure Category where
  id : Nat
  name : String
deriving Repr, DecidableEq

/-- A tag row (models.py `Tag`): `name = CharField(max_length=50,
unique=True)`. -/
structure Tag where
  id : Nat
  name : String
deriving Repr, DecidableEq

/-- A task row (models.py `Task`).  `user` is the owning user's primary key
(ForeignKey), `category` an optional category key (SET_NULL), `tags` the
many-to-many tag key set, `due_date` a date counted in days. -/
structure Task where
  id : Nat
  user : Nat
  title : String
  description : Option String
  due_date : Option Int
  priority : Priority
  status : Status
  category : Option Nat
  tags : List Nat
deriving Repr, DecidableEq

/-- The relational store backing the application: the user, category, tag
and task tables. -/
structure Store where
  users : List User
  categories : List Category
  tags : List Tag
  tasks : List Task
deriving Repr, DecidableEq

/-- An HTTP response as the endpoints build them: status code and the JSON
payload keys the views actually emit (`message`, `error`, `access_token`). -/
structure Response where
  status : Nat
  message : Option String
  error : Option String
  access_token : Option String
deriving Repr, DecidableEq

/-- An email handed to `send_mail` (views.py): recipient list, subject and
body text. -/
structure Email where
  recipients : List String
  subject : String
  text : String
deriving Repr, DecidableEq

/- Literal response texts from views.py. -/

def msgResetEmailSent : String :=
  "Se ha enviado un correo electrónico con instrucciones para restablecer tu contraseña."

def errEmailRequired : String := "Se requiere un correo electrónico."

def errInvalidJson : String := "Formato JSON inválido."

def errAllFieldsRequired : String := "Todos los campos son requeridos."

def errPasswordsMismatch : String := "Las contraseñas no coinciden."

def errInvalidLink : String :=
  "Enlace de restablecimiento de contraseña inválido o expirado."

def msgResetOk : String := "Contraseña restablecida con éxito"

def errNoPermissionEdit : String := "No tienes permiso para editar esta tarea."

def errNoPermissionDelete : String := "No tienes permiso para eliminar esta tarea."

def errDueDatePast : String := "La fecha de vencimiento no puede ser en el pasado."

/-- Response of the `user is None or check_token fails` branch of
`reset_password` (views.py line 234): HTTP 400 with the invalid-link error. -/
def invalidLinkResp : Response := ⟨400, none, some errInvalidLink, none⟩

/-- The generic success response of `forgot_password` (views.py lines 185 and
198): the same HTTP 200 body whether or not the email matched a user. -/
def resetSuccessResp : Response := ⟨200, some msgResetEmailSent, none, none⟩

/-- DRF `Http404` response raised by `get_object_or_404` when the looked-up
object is not in the (owner-filtered) queryset. -/
def notFoundResp : Response := ⟨404, none, some "Not found.", none⟩

/-- DRF `PermissionDenied` response of `perform_update` (views.py line 160). -/
def permissionDeniedEditResp : Response := ⟨403, none, some errNoPermissionEdit, none⟩

/-- DRF `PermissionDenied` response of `perform_destroy` (views.py line 165). -/
def permissionDeniedDeleteResp : Response := ⟨403, none, some errNoPermissionDelete, none⟩

/-- Python truthiness of an optional string, as used by
`if not all([uidb64, token, new_password, confirm_password])` and
`if not email`: absent and empty strings are falsy. -/
def presentStr : Option String → Bool
  | some s => decide (s ≠ "")
  | none => false

/-- `django.contrib.auth.hashers.make_password`, the salted password hash
stored by `user.set_password`.  The hash function is embedded as an
injective tagging function (collision-free idealization of PBKDF2): only
equality and inequality of hashes matter to the flows under proof. -/
def make_password (p : String) : String := "pbkdf2_sha256$" ++ p

/-- `user.set_password(new_password)` (views.py line 228): replace the
stored hash with the hash of the new plaintext. -/
def set_password (u : User) (p : String) : User :=
  { u with password := make_password p }

/-- `django.contrib.auth.tokens.default_token_generator`: a reset token
binds the user's primary key, the user's stored password hash at issuance,
and the issuance timestamp.  Django turns this tuple into an opaque string
with a keyed HMAC and `check_token` recomputes that string from the
presented timestamp and the user's current state and compares; the HMAC is
embedded as injective (collision-free idealization), so the token is the
bound tuple itself and verification is field-wise comparison.  A wire
string that is not a well-formed token behaves like a tuple matching no
user. -/
structure ResetToken where
  uid : Nat
  passwordHash : String
  timestamp : Nat
deriving Repr, DecidableEq

/-- `PASSWORD_RESET_TIMEOUT`: Django's default of 3 days (259200 s); the
repository's settings module does not override it. -/
def PASSWORD_RESET_TIMEOUT : Nat := 259200

/-- `default_token_generator.make_token(user)` at time `now` (views.py line
188): bind the user's pk, current password hash and the current time. -/
def make_token (now : Nat) (u : User) : ResetToken :=
  ⟨u.id, u.password, now⟩

/-- `default_token_generator.check_token(user, token)` at time `now`
(views.py line 227): recompute the token from the embedded timestamp and
the user's current state, compare, and reject tokens older than
`PASSWORD_RESET_TIMEOUT`.  (With Python ints a token from the future has a
negative age and passes the age check; truncated `Nat` subtraction gives an
age of `0` there, the same verdict.) -/
def check_token (now : Nat) (u : User) (t : ResetToken) : Bool :=
  decide (t.uid = u.id) && decide (t.passwordHash = u.password) &&
    decide (now - t.timestamp ≤ PASSWORD_RESET_TIMEOUT)

/-- `urlsafe_base64_encode(force_bytes(user.pk))` (views.py line 187).  The
base64 layer is a bijection on the wire and is dropped: the encoded id is
the decimal string of the pk. -/
def urlsafe_base64_encode (n : Nat) : String := toString n

/-- The numeric value of a decimal digit character. -/
def digitVal (c : Char) : Option Nat :=
  if c = '0' then some 0
  else if c = '1' then some 1
  else if c = '2' then some 2
  else if c = '3' then some 3
  else if c = '4' then some 4
  else if c = '5' then some 5
  else if c = '6' then some 6
  else if c = '7' then some 7
  else if c = '8' then some 8
  else if c = '9' then some 9
  else none

/-- Parse a non-empty run of decimal digits into a natural number. -/
def decodeDigits : List Char → Nat → Option Nat
  | [], acc => some acc
  | c :: t, acc =>
    match digitVal c with
    | some d => decodeDigits t (acc * 10 + d)
    | none => none

/-- `force_str(urlsafe_base64_decode(uidb64))` followed by the integer
coercion of `User.objects.get(pk=uid)` (views.py lines 222-223): strings
that decode to an integer primary key yield it; everything else raises
(TypeError/ValueError), caught to `user = None`.  (The sign/whitespace
tolerance of Python's `int()` is dropped; only which strings decode is
affected, not the behaviour on either side of that split.) -/
def urlsafe_base64_decode (s : String) : Option Nat :=
  match s.data with
  | [] => none
  | c :: t => decodeDigits (c :: t) 0

/-- `User.objects.get(pk=uid)`, firing the except-branch (`user = None`)
when no row matches (views.py lines 223-225). -/
def findUser (s : Store) (uid : Nat) : Option User :=
  s.users.find? (fun v => decide (v.id = uid))

/-- The user-resolution step of `reset_password` (views.py lines 221-225):
decode the encoded id and look the user up; any failure gives `None`. -/
def resolve_user (s : Store) (uidb64 : String) : Option User :=
  match urlsafe_base64_decode uidb64 with
  | some uid => findUser s uid
  | none => none

/-- `user.save()` after `set_password` (views.py line 229): write the
updated row back by primary key. -/
def save_user (s : Store) (u : User) : Store :=
  { s with users := s.users.map (fun v => if v.id = u.id then u else v) }

/-- `RefreshToken.for_user(user).access_token` (views.py lines 230-231),
embedded as an opaque per-user credential string; issuing it does not touch
the store. -/
def access_token_for (u : User) : String := "access-" ++ toString u.id

/-- Body of a `reset_password` request after JSON parsing: the four
`data.get(...)` fields, each possibly absent.  The token field carries the
(decoded) reset token; see `ResetToken` for the dropped string layer. -/
structure ResetBody where
  uidb64 : Option String
  token : Option ResetToken
  new_password : Option String
  confirm_password : Option String
deriving Repr, DecidableEq

/-- `reset_password` (views.py lines 205-238).  `body = none` is a JSON
parse failure (`json.JSONDecodeError`).  Returns the response and the
resulting store. -/
def reset_password (now : Nat) (s : Store) (body : Option ResetBody) :
    Response × Store :=
  match body with
  | none => (⟨400, none, some errInvalidJson, none⟩, s)
  | some b =>
    if ¬(presentStr b.uidb64 && b.token.isSome && presentStr b.new_password &&
        presentStr b.confirm_password) then
      (⟨400, none, some errAllFieldsRequired, none⟩, s)
    else if b.new_password ≠ b.confirm_password then
      (⟨400, none, some errPasswordsMismatch, none⟩, s)
    else
      match resolve_user s (b.uidb64.getD ""), b.token with
      | some u, some t =>
        if check_token now u t then
          match b.new_password with
          | some np =>
            (⟨200, some msgResetOk, none, some (access_token_for (set_password u np))⟩,
              save_user s (set_password u np))
          | none => (invalidLinkResp, s)
        else (invalidLinkResp, s)
      | _, _ => (invalidLinkResp, s)

/-- Body of a `forgot_password` request after JSON parsing. -/
structure ForgotBody where
  email : Option String
deriving Repr, DecidableEq

/-- `settings.FRONTEND_URL`.  Modelled from the spec: the settings module is
not under src/; the spec only requires a reset link embedding both values. -/
def FRONTEND_URL : String := "http://frontend.example"

/-- The reset URL `forgot_password` composes (views.py line 189).  The token
is rendered through its tuple form; see `ResetToken`. -/
def reset_url (uidb64 : String) (t : ResetToken) : String :=
  FRONTEND_URL ++ "/reset-password?uidb64=" ++ uidb64 ++ "&token=" ++
    toString t.uid ++ "." ++ t.passwordHash ++ "." ++ toString t.timestamp

/-- `forgot_password` (views.py lines 173-203).  `body = none` is a JSON
parse failure.  Returns the response and the list of emails handed to
`send_mail` (dispatch itself is fire-and-forget per the spec and embedded
as always succeeding).  `User.objects.get(email=email)` raises
`MultipleObjectsReturned` when several rows match, caught only by the
generic handler (HTTP 500). -/
def forgot_password (now : Nat) (s : Store) (body : Option ForgotBody) :
    Response × List Email :=
  match body with
  | none => (⟨400, none, some errInvalidJson, none⟩, [])
  | some b =>
    if ¬presentStr b.email then
      (⟨400, none, some errEmailRequired, none⟩, [])
    else
      let e := b.email.getD ""
      match s.users.filter (fun u => decide (u.email = e)) with
      | [] => (resetSuccessResp, [])
      | [u] =>
        let uidb64 := urlsafe_base64_encode u.id
        let t := make_token now u
        (resetSuccessResp,
          [⟨[e], "Restablecimiento de contraseña",
            "Por favor, haz clic en el siguiente enlace para restablecer tu contraseña: " ++
              reset_url uidb64 t⟩])
      | _ => (⟨500, none, some "Ocurrió un error inesperado", none⟩, [])

/-- Whether `sub` occurs at the start of `hay` (character lists). -/
def listStarts : List Char → List Char → Bool
  | _, [] => true
  | [], _ :: _ => false
  | h :: t, a :: b => (a == h) && listStarts t b

/-- Whether `sub` occurs somewhere inside `hay` (character lists). -/
def listHas : List Char → List Char → Bool
  | [], sub => sub.isEmpty
  | h :: t, sub => listStarts (h :: t) sub || listHas t sub

/-- The `icontains` lookup of `TaskFilter` (views.py lines 32-33):
case-insensitive substring match. -/
def icontains (hay sub : String) : Bool :=
  listHas hay.toLower.data sub.toLower.data

/-- Query parameters accepted by `TaskFilter` (views.py lines 31-43); each
absent parameter filters nothing. -/
structure TaskFilterParams where
  title : Option String
  description : Option String
  status : Option Status
  priority : Option Priority
  category : Option Nat
  due_date : Option Int
  due_date_after : Option Int
  due_date_before : Option Int
deriving Repr, DecidableEq

/-- A request with no filter query parameters. -/
def noFilter : TaskFilterParams :=
  ⟨none, none, none, none, none, none, none, none⟩

/-- Whether a task row passes every provided `TaskFilter` predicate. -/
def matchesFilter (p : TaskFilterParams) (t : Task) : Bool :=
  (match p.title with
    | some q => icontains t.title q
    | none => true) &&
  (match p.description with
    | some q => icontains (t.description.getD "") q
    | none => true) &&
  (match p.status with
    | some q => decide (t.status = q)
    | none => true) &&
  (match p.priority with
    | some q => decide (t.priority = q)
    | none => true) &&
  (match p.category with
    | some q => decide (t.category = some q)
    | none => true) &&
  (match p.due_date with
    | some q => decide (t.due_date = some q)
    | none => true) &&
  (match p.due_date_after with
    | some q => match t.due_date with
      | some d => decide (q ≤ d)
      | none => false
    | none => true) &&
  (match p.due_date_before with
    | some q => match t.due_date with
      | some d => decide (d ≤ q)
      | none => false
    | none => true)

/-- `TaskViewSet.get_queryset` (views.py lines 144-150): the task table
filtered to the rows owned by the requesting user. -/
def get_queryset (s : Store) (requester : Nat) : List Task :=
  s.tasks.filter (fun t => decide (t.user = requester))

/-- The list action of `TaskViewSet`: `filter_queryset(get_queryset())`,
i.e. the owner-scoped queryset further narrowed by `TaskFilter`. -/
def list_tasks (s : Store) (requester : Nat) (p : TaskFilterParams) :
    List Task :=
  (get_queryset s requester).filter (matchesFilter p)

/-- DRF `GenericAPIView.get_object` for the detail routes of `TaskViewSet`:
`get_object_or_404(filter_queryset(get_queryset()), pk=pk)` — the lookup is
scoped to the requester's own tasks before the pk match, so another owner's
task id resolves to nothing (Http404), never to the foreign row. -/
def get_object (s : Store) (requester : Nat) (p : TaskFilterParams)
    (taskId : Nat) : Option Task :=
  (list_tasks s requester p).find? (fun t => decide (t.id = taskId))

/-- The retrieve action of `TaskViewSet`: the object lookup, a found row
being serialized back, a miss being Http404. -/
def retrieve_task (s : Store) (requester : Nat) (taskId : Nat) :
    Option Task :=
  get_object s requester noFilter taskId

/-- `TaskSerializer.validate_due_date` (serializers.py lines 64-67): a
provided due date earlier than the current date is rejected.  (`if value`
only guards `None`: a Python `date` is always truthy.) -/
def validate_due_date (today : Int) (value : Option Int) :
    Except String (Option Int) :=
  match value with
  | some d => if d < today then Except.error errDueDatePast else Except.ok (some d)
  | none => Except.ok none

/-- A task request body as `TaskSerializer` receives it.  `user` is what a
client may have supplied for the read-only owner field — the serializer
drops it (`serializers.ReadOnlyField`, serializers.py line 55, and `user`
in `read_only_fields`, line 62), so no definition below reads it.
`category` distinguishes an absent key from an explicit null
(`allow_null=True, required=False`). -/
structure TaskBody where
  user : Option Nat
  title : Option String
  description : Option String
  due_date : Option Int
  priority : Option Priority
  status : Option Status
  category : Option (Option Nat)
  tags : Option (List Nat)
deriving Repr, DecidableEq

/-- An empty task request body. -/
def emptyTaskBody : TaskBody :=
  ⟨none, none, none, none, none, none, none, none⟩

/-- A ValidationError response (DRF serializer `is_valid(raise_exception=
True)`: HTTP 400 carrying the field error). -/
def validationErrorResp (msg : String) : Response := ⟨400, none, some msg, none⟩

/-- The `tags` half of the field validation (every provided tag pk must
exist in the `PrimaryKeyRelatedField` queryset). -/
def validate_task_tags (s : Store) (b : TaskBody) : Option Response :=
  match b.tags with
  | some ts =>
    if ts.all (fun tid => (s.tags.find? (fun tg => decide (tg.id = tid))).isSome) then
      none
    else some (validationErrorResp "tags: Invalid pk - object does not exist.")
  | none => none

/-- Field validation run by `TaskSerializer` on the provided fields: the
`title` CharField (required on create, max_length 200), the due-date
validator, and the `PrimaryKeyRelatedField` existence checks for `category`
and `tags` against their querysets (serializers.py lines 52-67).
`requireTitle` is true on create and false on partial update. -/
def validate_task_body (today : Int) (s : Store) (requireTitle : Bool)
    (b : TaskBody) : Option Response :=
  if requireTitle && !presentStr b.title then
    some (validationErrorResp "title: This field is required.")
  else if (b.title.getD "").length > 200 then
    some (validationErrorResp "title: Ensure this field has no more than 200 characters.")
  else
    match validate_due_date today b.due_date with
    | Except.error m => some (validationErrorResp m)
    | Except.ok _ =>
      match b.category with
      | some (some cid) =>
        if (s.categories.find? (fun c => decide (c.id = cid))).isNone then
          some (validationErrorResp "category: Invalid pk - object does not exist.")
        else validate_task_tags s b
      | _ => validate_task_tags s b

/-- A fresh primary key: one more than the largest key in use. -/
def freshId (ids : List Nat) : Nat :=
  ids.foldr (fun a b => max a b) 0 + 1

/-- The create action of `TaskViewSet`: serializer validation, then
`perform_create` saving with `user=self.request.user` (views.py lines
155-156) — the owner is the requester, never the body's `user` field; the
serializer's `create` builds the row and sets the tag set (serializers.py
lines 72-76). -/
def create_task (today : Int) (s : Store) (requester : Nat) (b : TaskBody) :
    Response × Store :=
  match validate_task_body today s true b with
  | some r => (r, s)
  | none =>
    let newTask : Task :=
      ⟨freshId (s.tasks.map Task.id), requester, b.title.getD "",
        b.description, b.due_date, b.priority.getD Priority.medium,
        b.status.getD Status.pending, b.category.getD none, b.tags.getD []⟩
    (⟨201, none, none, none⟩, { s with tasks := s.tasks ++ [newTask] })

/-- `TaskSerializer.update` (serializers.py lines 78-85): set the provided
attributes on the instance, save, and replace the tag set when one was
provided. -/
def apply_task_update (inst : Task) (b : TaskBody) : Task :=
  { inst with
    title := b.title.getD inst.title,
    description := match b.description with
      | some d => some d
      | none => inst.description,
    due_date := match b.due_date with
      | some d => some d
      | none => inst.due_date,
    priority := b.priority.getD inst.priority,
    status := b.status.getD inst.status,
    category := b.category.getD inst.category,
    tags := b.tags.getD inst.tags }

/-- The update action of `TaskViewSet` (DRF `UpdateModelMixin.update`):
`get_object()` (Http404 when the pk is not in the owner-scoped queryset),
serializer validation, then `perform_update` (views.py lines 158-161) with
its owner check before saving. -/
def update_task (today : Int) (s : Store) (requester : Nat) (taskId : Nat)
    (b : TaskBody) : Response × Store :=
  match get_object s requester noFilter taskId with
  | none => (notFoundResp, s)
  | some inst =>
    match validate_task_body today s false b with
    | some r => (r, s)
    | none =>
      if inst.user ≠ requester then (permissionDeniedEditResp, s)
      else
        (⟨200, none, none, none⟩,
          { s with tasks :=
              s.tasks.map (fun t => if t.id = taskId then apply_task_update t b else t) })

/-- The destroy action of `TaskViewSet` (DRF `DestroyModelMixin.destroy`):
`get_object()` then `perform_destroy` (views.py lines 163-166) with its
owner check before deleting. -/
def destroy_task (s : Store) (requester : Nat) (taskId : Nat) :
    Response × Store :=
  match get_object s requester noFilter taskId with
  | none => (notFoundResp, s)
  | some inst =>
    if inst.user ≠ requester then (permissionDeniedDeleteResp, s)
    else
      (⟨204, none, none, none⟩,
        { s with tasks := s.tasks.filter (fun t => decide (t.id ≠ taskId)) })

/-- The uniqueness-violation response for a duplicate Category name:
`name = CharField(unique=True)` (models.py line 29) makes DRF's
`ModelSerializer` attach a `UniqueValidator`, so the create/update fails
validation with HTTP 400 and no row is written. -/
def categoryUniqueResp : Response :=
  ⟨400, none, some "name: category with this name already exists.", none⟩

/-- The uniqueness-violation response for a duplicate Tag name
(models.py line 36). -/
def tagUniqueResp : Response :=
  ⟨400, none, some "name: tag with this name already exists.", none⟩

/-- The create action of `CategoryViewSet` (views.py lines 168-171) through
`CategorySerializer` (serializers.py lines 42-45): the `name` CharField is
required, at most 100 characters, and carries the model's unique
constraint. -/
def create_category (s : Store) (nm : Option String) : Response × Store :=
  if !presentStr nm then
    (validationErrorResp "name: This field is required.", s)
  else if (nm.getD "").length > 100 then
    (validationErrorResp "name: Ensure this field has no more than 100 characters.", s)
  else if s.categories.any (fun c => decide (c.name = nm.getD "")) then
    (categoryUniqueResp, s)
  else
    (⟨201, none, none, none⟩,
      { s with categories :=
          s.categories ++ [⟨freshId (s.categories.map Category.id), nm.getD ""⟩] })

/-- The update action of `CategoryViewSet`: object lookup by pk, then the
same validation with the `UniqueValidator` excluding the instance itself. -/
def update_category (s : Store) (cid : Nat) (nm : Option String) :
    Response × Store :=
  match s.categories.find? (fun c => decide (c.id = cid)) with
  | none => (notFoundResp, s)
  | some _ =>
    if !presentStr nm then
      (validationErrorResp "name: This field is required.", s)
    else if (nm.getD "").length > 100 then
      (validationErrorResp "name: Ensure this field has no more than 100 characters.", s)
    else if s.categories.any
        (fun c => decide (c.id ≠ cid) && decide (c.name = nm.getD "")) then
      (categoryUniqueResp, s)
    else
      (⟨200, none, none, none⟩,
        { s with categories :=
            s.categories.map (fun c => if c.id = cid then ⟨c.id, nm.getD ""⟩ else c) })

/-- The destroy action of `CategoryViewSet`: delete the row; the
`on_delete=SET_NULL` of `Task.category` (models.py line 71) clears the
reference on every task that pointed at it. -/
def destroy_category (s : Store) (cid : Nat) : Response × Store :=
  match s.categories.find? (fun c => decide (c.id = cid)) with
  | none => (notFoundResp, s)
  | some _ =>
    (⟨204, none, none, none⟩,
      { s with
        categories := s.categories.filter (fun c => decide (c.id ≠ cid)),
        tasks := s.tasks.map
          (fun t => if t.category = some cid then { t with category := none } else t) })

/-- The create action of `TagViewSet` (views.py lines 26-29) through
`TagSerializer`: `name` required, at most 50 characters, unique
(models.py line 36). -/
def create_tag (s : Store) (nm : Option String) : Response × Store :=
  if !presentStr nm then
    (validationErrorResp "name: This field is required.", s)
  else if (nm.getD "").length > 50 then
    (validationErrorResp "name: Ensure this field has no more than 50 characters.", s)
  else if s.tags.any (fun tg => decide (tg.name = nm.getD "")) then
    (tagUniqueResp, s)
  else
    (⟨201, none, none, none⟩,
      { s with tags := s.tags ++ [⟨freshId (s.tags.map Tag.id), nm.getD ""⟩] })

/-- The update action of `TagViewSet`, with the `UniqueValidator` excluding
the instance itself. -/
def update_tag (s : Store) (tid : Nat) (nm : Option String) :
    Response × Store :=
  match s.tags.find? (fun tg => decide (tg.id = tid)) with
  | none => (notFoundResp, s)
  | some _ =>
    if !presentStr nm then
      (validationErrorResp "name: This field is required.", s)
    else if (nm.getD "").length > 50 then
      (validationErrorResp "name: Ensure this field has no more than 50 characters.", s)
    else if s.tags.any
        (fun tg => decide (tg.id ≠ tid) && decide (tg.name = nm.getD "")) then
      (tagUniqueResp, s)
    else
      (⟨200, none, none, none⟩,
        { s with tags :=
            s.tags.map (fun tg => if tg.id = tid then ⟨tg.id, nm.getD ""⟩ else tg) })

/-- The destroy action of `TagViewSet`: delete the row; the many-to-many
join rows are deleted with it, removing the tag from every task's set. -/
def destroy_tag (s : Store) (tid : Nat) : Response × Store :=
  match s.tags.find? (fun tg => decide (tg.id = tid)) with
  | none => (notFoundResp, s)
  | some _ =>
    (⟨204, none, none, none⟩,
      { s with
        tags := s.tags.filter (fun tg => decide (tg.id ≠ tid)),
        tasks := s.tasks.map
          (fun t => { t with tags := t.tags.filter (fun x => decide (x ≠ tid)) }) })

/-- HTTP methods. -/
inductive Method
  | GET
  | HEAD
  | OPTIONS
  | POST
  | PUT
  | PATCH
  | DELETE
deriving Repr, DecidableEq

/-- DRF's `SAFE_METHODS`. -/
def SAFE_METHODS : List Method := [Method.GET, Method.HEAD, Method.OPTIONS]

/-- The routed endpoints (urls.py lines 6-22). -/
inductive Endpoint
  | register
  | login
  | logout
  | profile
  | changePassword
  | forgotPassword
  | resetPassword
  | tasks
  | categories
  | tags
deriving Repr, DecidableEq

/-- DRF `IsAuthenticatedOrReadOnly.has_permission`: safe methods are open,
everything else needs an authenticated user. -/
def isAuthenticatedOrReadOnly (m : Method) (authenticated : Bool) : Bool :=
  decide (m ∈ SAFE_METHODS) || authenticated

/-- Whether a request to an endpoint passes its `permission_classes`
(views.py: `AllowAny` on registration/login/forgot/reset, `IsAuthenticated`
on logout/profile/change-password/tasks, `IsAuthenticatedOrReadOnly` on
categories and tags, lines 26-29 and 168-171). -/
def permits (e : Endpoint) (m : Method) (authenticated : Bool) : Bool :=
  match e with
  | Endpoint.register => true
  | Endpoint.login => true
  | Endpoint.forgotPassword => true
  | Endpoint.resetPassword => true
  | Endpoint.logout => authenticated
  | Endpoint.profile => authenticated
  | Endpoint.changePassword => authenticated
  | Endpoint.tasks => authenticated
  | Endpoint.categories => isAuthenticatedOrReadOnly m authenticated
  | Endpoint.tags => isAuthenticatedOrReadOnly m authenticated

/-- The four endpoints the spec lists as unauthenticated. -/
def openEndpoints : List Endpoint :=
  [Endpoint.register, Endpoint.login, Endpoint.forgotPassword, Endpoint.resetPassword]

/- Sample rows and store used by the concrete witness theorems. -/

def aliceUser : User := ⟨1, "alice", "alice@example.com", "pbkdf2_sha256$old"⟩

def bobUser : User := ⟨2, "bob", "bob@example.com", "pbkdf2_sha256$pw"⟩

def sampleTask : Task :=
  ⟨10, 1, "Task 1", none, none, Priority.medium, Status.pending, none, []⟩

def sampleStore : Store :=
  ⟨[aliceUser, bobUser], [⟨1, "Work"⟩], [⟨1, "Urgent"⟩], [sampleTask]⟩

/- Helper lemmas shared by several theorems. -/

/-- Every element of an owner-scoped, filtered task list is owned by the
requester. -/
lemma mem_list_tasks_owner {s : Store} {b : Nat} {p : TaskFilterParams}
    {t : Task} (h : t ∈ list_tasks s b p) : t.user = b := by
  unfold list_tasks get_queryset at h
  have h1 := (List.mem_filter.mp h).1
  have h2 := (List.mem_filter.mp h1).2
  exact of_decide_eq_true h2

/-- A successful detail lookup returns a row owned by the requester and
carrying the looked-up id. -/
lemma get_object_owner {s : Store} {b : Nat} {p : TaskFilterParams}
    {taskId : Nat} {t : Task} (h : get_object s b p taskId = some t) :
    t.user = b ∧ t.id = taskId := by
  unfold get_object at h
  refine ⟨mem_list_tasks_owner (List.mem_of_find?_eq_some h), ?_⟩
  have hp := @List.find?_some Task (fun v => decide (v.id = taskId)) t
    (list_tasks s b p) h
  exact of_decide_eq_true hp

/-- When every task carrying the looked-up id has a different owner, the
owner-scoped detail lookup misses. -/
lemma get_object_none_of_foreign {s : Store} {b : Nat} {taskId : Nat}
    (h : ∀ t ∈ s.tasks, t.id = taskId → t.user ≠ b) :
    get_object s b noFilter taskId = none := by
  unfold get_object
  refine List.find?_eq_none.mpr (fun t ht hpred => ?_)
  have hid : t.id = taskId := of_decide_eq_true hpred
  have huser : t.user = b := mem_list_tasks_owner ht
  have hmem : t ∈ s.tasks := by
    unfold list_tasks get_queryset at ht
    exact (List.mem_filter.mp ((List.mem_filter.mp ht).1)).1
  exact h t hmem hid huser

/-- If the provided due date is in the past, `TaskSerializer` validation
fails with some field-level ValidationError. -/
lemma validate_task_body_due_error (rt : Bool) {today : Int} {s : Store}
    {b : TaskBody} {d : Int}
    (hdue : b.due_date = some d) (hlt : d < today) :
    ∃ m, validate_task_body today s rt b = some (validationErrorResp m) := by
  unfold validate_task_body
  split
  · exact ⟨_, rfl⟩
  · split
    · exact ⟨_, rfl⟩
    · rw [hdue]
      refine ⟨errDueDatePast, ?_⟩
      simp [validate_due_date, hlt]

/-- C3: task list and retrieve are scoped to the requester: every task a
user's list query returns is owned by that user, for any filter
parameters, and a task another user owns is never returned by retrieve. -/
theorem list_retrieve_never_leak_foreign_tasks (s : Store) (b : Nat) :
    (∀ (p : TaskFilterParams) (t : Task), t ∈ list_tasks s b p → t.user = b) ∧
    (∀ (taskId : Nat) (t : Task), retrieve_task s b taskId = some t → t.user = b) := by
  constructor
  · intro p t ht
    exact mem_list_tasks_owner ht
  · intro taskId t ht
    exact (get_object_owner ht).1

/-- Witness for C3: in the sample store, Bob's list query does return the
concrete task it contains, and the theorem yields its ownership. -/
theorem list_retrieve_never_leak_foreign_tasks_witness :
    sampleTask.user = 1 :=
  (list_retrieve_never_leak_foreign_tasks sampleStore 1).1 noFilter sampleTask
    (by decide)

/-- C6: due-date validation compares against the current date: a provided
due date strictly before today is rejected with the ValidationError of
`validate_due_date`, one at or after today is accepted; consequently a
create request or an update request (on a task the requester can reach)
carrying a past due date fails with HTTP 400 and leaves the store
unchanged. -/
theorem due_date_validation_boundary :
    (∀ c d : Int, d < c →
      validate_due_date c (some d) = Except.error errDueDatePast) ∧
    (∀ c d : Int, c ≤ d →
      validate_due_date c (some d) = Except.ok (some d)) ∧
    (∀ (today : Int) (s : Store) (req : Nat) (b : TaskBody) (d : Int),
      b.due_date = some d → d < today →
      (create_task today s req b).1.status = 400 ∧
        (create_task today s req b).2 = s) ∧
    (∀ (today : Int) (s : Store) (req taskId : Nat) (b : TaskBody)
      (inst : Task) (d : Int),
      get_object s req noFilter taskId = some inst →
      b.due_date = some d → d < today →
      (update_task today s req taskId b).1.status = 400 ∧
        (update_task today s req taskId b).2 = s) := by
  refine ⟨?_, ?_, ?_, ?_⟩
  · intro c d h
    simp [validate_due_date, h]
  · intro c d h
    simp [validate_due_date, not_lt.mpr h]
  · intro today s req b d hdue hlt
    obtain ⟨m, hm⟩ := validate_task_body_due_error true hdue hlt
    unfold create_task
    rw [hm]
    exact ⟨rfl, rfl⟩
  · intro today s req taskId b inst d hobj hdue hlt
    obtain ⟨m, hm⟩ := validate_task_body_due_error false hdue hlt
    unfold update_task
    rw [hobj, hm]
    exact ⟨rfl, rfl⟩

/-- Witness for C6: with today = 5, due date 4 (yesterday-like) is rejected
and due date 6 (tomorrow-like) accepted; a concrete create with due date 4
fails with HTTP 400 and does not change the sample store. -/
theorem due_date_validation_boundary_witness :
    validate_due_date 5 (some 4) = Except.error errDueDatePast ∧
    validate_due_date 5 (some 6) = Except.ok (some 6) ∧
    ((create_task 5 sampleStore 1
        ⟨none, some "t", none, some 4, none, none, none, none⟩).1.status = 400 ∧
      (create_task 5 sampleStore 1
        ⟨none, some "t", none, some 4, none, none, none, none⟩).2 = sampleStore) :=
  ⟨due_date_validation_boundary.1 5 4 (by decide),
   due_date_validation_boundary.2.1 5 6 (by decide),
   due_date_validation_boundary.2.2.1 5 sampleStore 1
     ⟨none, some "t", none, some 4, none, none, none, none⟩ 4 rfl (by decide)⟩

/-- C7: the owner of every task a create request adds is the requester:
whatever the body carries (including a client-supplied `user` value), any
task in the resulting store is either a pre-existing row or owned by the
requester. -/
theorem create_task_owner_is_requester (today : Int) (s : Store)
    (req : Nat) (b : TaskBody) :
    ∀ t ∈ (create_task today s req b).2.tasks, t ∈ s.tasks ∨ t.user = req := by
  intro t ht
  unfold create_task at ht
  split at ht
  · exact Or.inl ht
  · rcases List.mem_append.mp ht with h | h
    · exact Or.inl h
    · rcases List.mem_singleton.mp h with rfl
      exact Or.inr rfl

/-- Witness for C7: a concrete create by requester 7 whose body claims
owner 99 yields a task the theorem certifies as pre-existing or owned by 7
(here: the fresh row, owned by 7). -/
theorem create_task_owner_is_requester_witness :
    (⟨11, 7, "t", none, none, Priority.medium, Status.pending, none, []⟩ : Task)
        ∈ sampleStore.tasks ∨
      (⟨11, 7, "t", none, none, Priority.medium, Status.pending, none, []⟩ : Task).user = 7 :=
  create_task_owner_is_requester 0 sampleStore 7
    ⟨some 99, some "t", none, none, none, none, none, none⟩
    ⟨11, 7, "t", none, none, Priority.medium, Status.pending, none, []⟩
    (by decide)

/-- C10: `reset_password` is atomic on error: whenever it answers anything
but the HTTP 200 success (missing fields, password mismatch, invalid JSON,
undecodable or unmatched identifier, failed token check), the store —
including every stored password hash — is returned unchanged and no access
credential is present in the response. -/
theorem reset_password_atomic_on_error (now : Nat) (s : Store)
    (body : Option ResetBody) (r : Response) (s2 : Store)
    (hEq : reset_password now s body = (r, s2)) (hne : r.status ≠ 200) :
    s2 = s ∧ r.access_token = none := by
  unfold reset_password at hEq
  split at hEq
  · cases hEq
    exact ⟨rfl, rfl⟩
  · split at hEq
    · cases hEq
      exact ⟨rfl, rfl⟩
    · split at hEq
      · cases hEq
        exact ⟨rfl, rfl⟩
      · split at hEq
        · split at hEq
          · split at hEq
            · cases hEq
              exact absurd rfl hne
            · cases hEq
              exact ⟨rfl, rfl⟩
          · cases hEq
            exact ⟨rfl, rfl⟩
        · cases hEq
          exact ⟨rfl, rfl⟩

/-- Witness for C10: the concrete password-mismatch request fails (HTTP
400) and the theorem yields that the sample store and credential are
untouched. -/
theorem reset_password_atomic_on_error_witness :
    (reset_password 0 sampleStore
        (some ⟨some "1", some (make_token 0 aliceUser), some "a", some "b"⟩)).2 =
        sampleStore ∧
      (reset_password 0 sampleStore
        (some ⟨some "1", some (make_token 0 aliceUser), some "a", some "b"⟩)).1.access_token =
        none :=
  reset_password_atomic_on_error 0 sampleStore
    (some ⟨some "1", some (make_token 0 aliceUser), some "a", some "b"⟩)
    (reset_password 0 sampleStore
      (some ⟨some "1", some (make_token 0 aliceUser), some "a", some "b"⟩)).1
    (reset_password 0 sampleStore
      (some ⟨some "1", some (make_token 0 aliceUser), some "a", some "b"⟩)).2
    rfl (by decide)

/-- C5: with all four fields present and matching passwords, the three
link-failure modes of `reset_password` — undecodable encoded id, decoded id
matching no user, and failed token verification against the resolved user —
all answer with the literally identical `invalidLinkResp`, so the caller
cannot tell which part of the link was wrong. -/
theorem reset_password_invalid_link_indistinguishable (now : Nat) (s : Store)
    (ub : String) (tok : ResetToken) (np cp : String)
    (hub : ub ≠ "") (hnp : np ≠ "") (hcp : cp ≠ "") (hm : np = cp) :
    (urlsafe_base64_decode ub = none →
      (reset_password now s (some ⟨some ub, some tok, some np, some cp⟩)).1 =
        invalidLinkResp) ∧
    (∀ uid : Nat, urlsafe_base64_decode ub = some uid → findUser s uid = none →
      (reset_password now s (some ⟨some ub, some tok, some np, some cp⟩)).1 =
        invalidLinkResp) ∧
    (∀ (uid : Nat) (u : User), urlsafe_base64_decode ub = some uid →
      findUser s uid = some u → check_token now u tok = false →
      (reset_password now s (some ⟨some ub, some tok, some np, some cp⟩)).1 =
        invalidLinkResp) := by
  subst hm
  refine ⟨?_, ?_, ?_⟩
  · intro hdec
    simp [reset_password, presentStr, resolve_user, hub, hnp, hdec]
  · intro uid hdec hfind
    simp [reset_password, presentStr, resolve_user, hub, hnp, hdec, hfind]
  · intro uid u hdec hfind hchk
    simp [reset_password, presentStr, resolve_user, hub, hnp, hdec, hfind, hchk]

/-- Witness for C5: the concrete undecodable encoded id "xyz" yields the
invalid-link response. -/
theorem reset_password_invalid_link_indistinguishable_witness :
    (reset_password 0 sampleStore
        (some ⟨some "xyz", some (make_token 0 aliceUser), some "np", some "np"⟩)).1 =
      invalidLinkResp :=
  (reset_password_invalid_link_indistinguishable 0 sampleStore "xyz"
      (make_token 0 aliceUser) "np" "np" (by decide) (by decide) (by decide)
      rfl).1 (by decide)

/-- C2: `forgot_password` prevents email enumeration: with unique stored
emails (the spec's identity-store invariant), the response to any
well-formed request is the constant generic success — independent of
whether a user with that email exists — and when no user matches, no email
is handed to dispatch. -/
theorem forgot_password_no_enumeration (now : Nat) (s : Store) (e : String)
    (hnodup : (s.users.map User.email).Nodup) (he : e ≠ "") :
    (forgot_password now s (some ⟨some e⟩)).1 = resetSuccessResp ∧
    ((∀ u ∈ s.users, u.email ≠ e) →
      (forgot_password now s (some ⟨some e⟩)).2 = []) := by
  have hpres : presentStr (some e) = true := by simp [presentStr, he]
  rcases hfil : s.users.filter (fun u => decide (u.email = e)) with - | ⟨u, rest⟩
  · constructor
    · simp [forgot_password, hpres, hfil]
    · intro _
      simp [forgot_password, hpres, hfil]
  · have hu : u ∈ s.users.filter (fun u => decide (u.email = e)) := by
      rw [hfil]
      exact List.mem_cons_self u rest
    have hue : u.email = e := of_decide_eq_true (List.mem_filter.mp hu).2
    rcases rest with - | ⟨v, rest2⟩
    · constructor
      · simp [forgot_password, hpres, hfil]
      · intro hno
        exact absurd hue (hno u (List.mem_filter.mp hu).1)
    · exfalso
      have hv : v ∈ s.users.filter (fun u => decide (u.email = e)) := by
        rw [hfil]
        exact List.mem_cons_of_mem u (List.mem_cons_self v rest2)
      have hve : v.email = e := of_decide_eq_true (List.mem_filter.mp hv).2
      have hsub : List.Sublist
          ((s.users.filter (fun u => decide (u.email = e))).map User.email)
          (s.users.map User.email) :=
        List.Sublist.map User.email (List.filter_sublist s.users)
      have hnd := hnodup.sublist hsub
      rw [hfil] at hnd
      simp only [List.map_cons, List.nodup_cons] at hnd
      exact hnd.1 (by rw [hue, ← hve]; exact List.mem_cons_self v.email _)

/-- Witness for C2: in the sample store (distinct emails), a request for an
unregistered email gets the generic success response and sends nothing. -/
theorem forgot_password_no_enumeration_witness :
    (forgot_password 0 sampleStore (some ⟨some "ghost@example.com"⟩)).1 =
        resetSuccessResp ∧
      (forgot_password 0 sampleStore (some ⟨some "ghost@example.com"⟩)).2 = [] := by
  have h := forgot_password_no_enumeration 0 sampleStore "ghost@example.com"
    (by decide) (by decide)
  exact ⟨h.1, h.2 (by decide)⟩

/-- Counterexample to C1 as stated: in the sample store, task 10 belongs to
user 1; user 2's update and delete requests for it fail with the Http404
`notFoundResp` — not with `PermissionDenied` — because the object lookup
runs on the owner-scoped queryset. -/
theorem cross_user_mutation_counterexample :
    (update_task 0 sampleStore 2 10 emptyTaskBody).1 = notFoundResp ∧
    (destroy_task sampleStore 2 10).1 = notFoundResp ∧
    notFoundResp ≠ permissionDeniedEditResp ∧
    notFoundResp ≠ permissionDeniedDeleteResp := by decide

/-- C1 (amended): an update or delete request by an authenticated non-owner
targeting a task fails — with `NotFound`, since the detail lookup is scoped
to the requester's own tasks and never resolves a foreign row (the
`PermissionDenied` branch of `perform_update`/`perform_destroy` is
unreachable for such requests) — and performs no mutation: the store, hence
every field, category and tag set of the target task, is unchanged. -/
theorem cross_user_mutation_rejected_unchanged (today : Int) (s : Store)
    (b taskId : Nat) (body : TaskBody)
    (h : ∀ t ∈ s.tasks, t.id = taskId → t.user ≠ b) :
    update_task today s b taskId body = (notFoundResp, s) ∧
    destroy_task s b taskId = (notFoundResp, s) := by
  have hobj := get_object_none_of_foreign h
  constructor
  · unfold update_task
    rw [hobj]
  · unfold destroy_task
    rw [hobj]

/-- Witness for amended C1: user 2 update/delete of user 1's task 10 in the
sample store answers `notFoundResp` and leaves the store untouched. -/
theorem cross_user_mutation_rejected_unchanged_witness :
    update_task 0 sampleStore 2 10 emptyTaskBody = (notFoundResp, sampleStore) ∧
      destroy_task sampleStore 2 10 = (notFoundResp, sampleStore) :=
  cross_user_mutation_rejected_unchanged 0 sampleStore 2 10 emptyTaskBody
    (by decide)

/-- Counterexample to C8 as stated: unauthenticated GET requests to the
category and tag endpoints are served, not rejected —
`IsAuthenticatedOrReadOnly` opens the safe methods to anonymous callers. -/
theorem unauthenticated_taxonomy_read_counterexample :
    permits Endpoint.categories Method.GET false = true ∧
    permits Endpoint.tags Method.GET false = true := by decide

/-- C8 (amended): outside the four open endpoints (registration, login,
forgot-password, reset-password), an unauthenticated request is served
exactly when it is a safe-method (GET/HEAD/OPTIONS) request to the category
or tag endpoints; every other unauthenticated request — including all
writes to categories and tags and every request to the task, profile,
logout and change-password endpoints — is rejected. -/
theorem endpoint_authentication_policy (e : Endpoint) (m : Method)
    (h : e ∉ openEndpoints) :
    permits e m false = true ↔
      ((e = Endpoint.categories ∨ e = Endpoint.tags) ∧ m ∈ SAFE_METHODS) := by
  revert h
  cases e <;> cases m <;> decide

/-- Witness for amended C8: the task endpoint is not open and an
unauthenticated POST to it is rejected. -/
theorem endpoint_authentication_policy_witness :
    permits Endpoint.tasks Method.POST false = true ↔
      ((Endpoint.tasks = Endpoint.categories ∨ Endpoint.tasks = Endpoint.tags) ∧
        Method.POST ∈ SAFE_METHODS) :=
  endpoint_authentication_policy Endpoint.tasks Method.POST (by decide)

/-- Looking a row up by id after writing back a row with the same id finds
the written row. -/
lemma find_update_by_id (uid : Nat) (u u2 : User) (hid : u2.id = u.id) :
    ∀ l : List User, l.find? (fun v => decide (v.id = uid)) = some u →
      (l.map (fun v => if v.id = u2.id then u2 else v)).find?
        (fun v => decide (v.id = uid)) = some u2 := by
  intro l
  induction l with
  | nil =>
    intro h
    simp at h
  | cons w t ih =>
    intro h
    by_cases hw : w.id = uid
    · have hwu : w = u := by
        rw [List.find?_cons_of_pos _ (by simp [hw])] at h
        exact Option.some.inj h
      have huid : u.id = uid := hwu ▸ hw
      simp only [List.map_cons]
      rw [if_pos (by rw [hid, huid, hw])]
      exact List.find?_cons_of_pos _ (by simp [hid, huid])
    · rw [List.find?_cons_of_neg _ (by simp [hw])] at h
      have huid : u.id = uid := of_decide_eq_true
        (@List.find?_some User (fun v => decide (v.id = uid)) u t h)
      simp only [List.map_cons]
      rw [if_neg (by rw [hid, huid]; exact hw)]
      rw [List.find?_cons_of_neg _ (by simp [hw])]
      exact ih h

/-- C4: a reset token is bound to the password hash it was issued over:
once a `reset_password` call with that token succeeds and stores a
different hash, presenting the same token again — at any later (or any)
time — fails with the invalid-link response. -/
theorem reset_token_single_use_after_password_change (s : Store)
    (issuedAt now1 now2 : Nat) (ub np : String) (u : User)
    (hres : resolve_user s ub = some u)
    (hchanged : make_password np ≠ u.password)
    (hsucc : (reset_password now1 s
      (some ⟨some ub, some (make_token issuedAt u), some np, some np⟩)).1.status = 200) :
    (reset_password now2
      (reset_password now1 s
        (some ⟨some ub, some (make_token issuedAt u), some np, some np⟩)).2
      (some ⟨some ub, some (make_token issuedAt u), some np, some np⟩)).1 =
      invalidLinkResp := by
  have hub : ub ≠ "" := by
    intro hb
    rw [hb] at hsucc
    simp [reset_password, presentStr] at hsucc
  have hnp : np ≠ "" := by
    intro hb
    rw [hb] at hsucc
    simp [reset_password, presentStr] at hsucc
  obtain ⟨uid, hdec, hfind⟩ :
      ∃ uid, urlsafe_base64_decode ub = some uid ∧ findUser s uid = some u := by
    unfold resolve_user at hres
    cases hd : urlsafe_base64_decode ub with
    | none =>
      rw [hd] at hres
      simp at hres
    | some uid =>
      rw [hd] at hres
      exact ⟨uid, rfl, hres⟩
  cases hchk : check_token now1 u (make_token issuedAt u) with
  | false =>
    exfalso
    simp [reset_password, presentStr, resolve_user, invalidLinkResp, hub, hnp,
      hdec, hfind, hchk] at hsucc
  | true =>
    have hs1 : (reset_password now1 s
        (some ⟨some ub, some (make_token issuedAt u), some np, some np⟩)).2 =
        save_user s (set_password u np) := by
      simp [reset_password, presentStr, resolve_user, hub, hnp, hdec, hfind, hchk]
    rw [hs1]
    have hfind2 : findUser (save_user s (set_password u np)) uid =
        some (set_password u np) := by
      unfold findUser save_user
      exact find_update_by_id uid u (set_password u np) rfl s.users hfind
    have hhash : ¬ (make_token issuedAt u).passwordHash = (set_password u np).password := by
      simp only [make_token, set_password]
      exact fun hh => hchanged hh.symm
    have hchk2 : check_token now2 (set_password u np) (make_token issuedAt u) = false := by
      simp [check_token, hhash]
    simp [reset_password, presentStr, resolve_user, hub, hnp, hdec, hfind2, hchk2]

/-- Witness for C4: Alice's concrete token from the sample store is used
once successfully with a fresh password; the same token presented again
gets the invalid-link response. -/
theorem reset_token_single_use_after_password_change_witness :
    (reset_password 0
      (reset_password 0 sampleStore
        (some ⟨some "1", some (make_token 0 aliceUser), some "fresh", some "fresh"⟩)).2
      (some ⟨some "1", some (make_token 0 aliceUser), some "fresh", some "fresh"⟩)).1 =
      invalidLinkResp :=
  reset_token_single_use_after_password_change sampleStore 0 0 0 "1" "fresh"
    aliceUser (by decide) (by decide) (by decide)

/-- Renaming the (unique) row with a given id to a name no other row
carries keeps the projected name list duplicate-free. -/
lemma nodup_names_rename {α : Type} (pid : α → Nat) (pnm : α → String)
    (mk : α → α) (cid : Nat) (n : String) (hmkn : ∀ c, pnm (mk c) = n) :
    ∀ l : List α, (l.map pid).Nodup → (l.map pnm).Nodup →
      (∀ c ∈ l, pid c ≠ cid → pnm c ≠ n) →
      ((l.map (fun c => if pid c = cid then mk c else c)).map pnm).Nodup := by
  intro l
  induction l with
  | nil =>
    intro _ _ _
    simp
  | cons c t ih =>
    intro hid hnm hoth
    simp only [List.map_cons, List.nodup_cons] at hid hnm ⊢
    refine ⟨?_, ih hid.2 hnm.2 (fun v hv => hoth v (List.mem_cons_of_mem c hv))⟩
    intro hmem
    rw [List.map_map] at hmem
    obtain ⟨v, hv, hveq⟩ := List.mem_map.mp hmem
    by_cases hc : pid c = cid
    · rw [if_pos hc, hmkn] at hveq
      by_cases hvc : pid v = cid
      · exact hid.1 (List.mem_map.mpr ⟨v, hv, by rw [hvc, hc]⟩)
      · have hvn : pnm v = n := by
          simpa [Function.comp, if_neg hvc] using hveq
        exact hoth v (List.mem_cons_of_mem c hv) hvc hvn
    · rw [if_neg hc] at hveq
      by_cases hvc : pid v = cid
      · have hvn : pnm c = n := by
          rw [← hveq]
          simp [Function.comp, if_pos hvc, hmkn]
        exact hoth c (List.mem_cons_self c t) hc hvn
      · have hvv : pnm v = pnm c := by
          simpa [Function.comp, if_neg hvc] using hveq
        exact hnm.1 (List.mem_map.mpr ⟨v, hv, hvv⟩)

/-- C9: Category and Tag names are unique and every taxonomy operation
preserves that: creating a second Category (resp. Tag) carrying an
already-stored name fails with the uniqueness-violation response and adds
no record, and the create, update and destroy operations each keep the
stored name lists duplicate-free. -/
theorem taxonomy_name_uniqueness :
    (∀ (s : Store) (nm : String), nm ≠ "" → nm.length ≤ 100 →
      (∃ c ∈ s.categories, c.name = nm) →
      create_category s (some nm) = (categoryUniqueResp, s)) ∧
    (∀ (s : Store) (nm : String), nm ≠ "" → nm.length ≤ 50 →
      (∃ tg ∈ s.tags, tg.name = nm) →
      create_tag s (some nm) = (tagUniqueResp, s)) ∧
    (∀ (s : Store) (nm : Option String),
      (s.categories.map Category.name).Nodup →
      ((create_category s nm).2.categories.map Category.name).Nodup) ∧
    (∀ (s : Store) (nm : Option String),
      (s.tags.map Tag.name).Nodup →
      ((create_tag s nm).2.tags.map Tag.name).Nodup) ∧
    (∀ (s : Store) (cid : Nat) (nm : Option String),
      (s.categories.map Category.id).Nodup →
      (s.categories.map Category.name).Nodup →
      ((update_category s cid nm).2.categories.map Category.name).Nodup) ∧
    (∀ (s : Store) (tid : Nat) (nm : Option String),
      (s.tags.map Tag.id).Nodup →
      (s.tags.map Tag.name).Nodup →
      ((update_tag s tid nm).2.tags.map Tag.name).Nodup) ∧
    (∀ (s : Store) (cid : Nat),
      (s.categories.map Category.name).Nodup →
      ((destroy_category s cid).2.categories.map Category.name).Nodup) ∧
    (∀ (s : Store) (tid : Nat),
      (s.tags.map Tag.name).Nodup →
      ((destroy_tag s tid).2.tags.map Tag.name).Nodup) := by
  refine ⟨?_, ?_, ?_, ?_, ?_, ?_, ?_, ?_⟩
  · intro s nm hne hlen hex
    obtain ⟨c, hc, hcn⟩ := hex
    have hany : s.categories.any (fun c => decide (c.name = nm)) = true :=
      List.any_eq_true.mpr ⟨c, hc, by simp [hcn]⟩
    simp [create_category, presentStr, hne, hany, Nat.not_lt.mpr hlen]
  · intro s nm hne hlen hex
    obtain ⟨tg, hc, hcn⟩ := hex
    have hany : s.tags.any (fun tg => decide (tg.name = nm)) = true :=
      List.any_eq_true.mpr ⟨tg, hc, by simp [hcn]⟩
    simp [create_tag, presentStr, hne, hany, Nat.not_lt.mpr hlen]
  · intro s nm hnm
    unfold create_category
    split_ifs with h1 h2 h3
    · simpa using hnm
    · simpa using hnm
    · simpa using hnm
    · simp only [List.map_append, List.map_cons, List.map_nil]
      refine List.nodup_append.mpr ⟨hnm, List.nodup_singleton _, ?_⟩
      intro a ha hb
      obtain ⟨c, hc, rfl⟩ := List.mem_map.mp ha
      have heq : c.name = nm.getD "" := by simpa using hb
      exact h3 (List.any_eq_true.mpr ⟨c, hc, by simp [heq]⟩)
  · intro s nm hnm
    unfold create_tag
    split_ifs with h1 h2 h3
    · simpa using hnm
    · simpa using hnm
    · simpa using hnm
    · simp only [List.map_append, List.map_cons, List.map_nil]
      refine List.nodup_append.mpr ⟨hnm, List.nodup_singleton _, ?_⟩
      intro a ha hb
      obtain ⟨tg, hc, rfl⟩ := List.mem_map.mp ha
      have heq : tg.name = nm.getD "" := by simpa using hb
      exact h3 (List.any_eq_true.mpr ⟨tg, hc, by simp [heq]⟩)
  · intro s cid nm hid hnm
    unfold update_category
    split
    · simpa using hnm
    · split_ifs with h1 h2 h3
      · simpa using hnm
      · simpa using hnm
      · simpa using hnm
      · have hoth : ∀ c ∈ s.categories, c.id ≠ cid → c.name ≠ nm.getD "" := by
          intro c hc hcid hceq
          exact h3 (List.any_eq_true.mpr ⟨c, hc, by simp [hcid, hceq]⟩)
        exact nodup_names_rename Category.id Category.name
          (fun c => ⟨c.id, nm.getD ""⟩) cid (nm.getD "") (fun c => rfl)
          s.categories hid hnm hoth
  · intro s tid nm hid hnm
    unfold update_tag
    split
    · simpa using hnm
    · split_ifs with h1 h2 h3
      · simpa using hnm
      · simpa using hnm
      · simpa using hnm
      · have hoth : ∀ tg ∈ s.tags, tg.id ≠ tid → tg.name ≠ nm.getD "" := by
          intro tg hc hcid hceq
          exact h3 (List.any_eq_true.mpr ⟨tg, hc, by simp [hcid, hceq]⟩)
        exact nodup_names_rename Tag.id Tag.name
          (fun tg => ⟨tg.id, nm.getD ""⟩) tid (nm.getD "") (fun tg => rfl)
          s.tags hid hnm hoth
  · intro s cid hnm
    unfold destroy_category
    split
    · simpa using hnm
    · exact List.Nodup.sublist
        (List.Sublist.map Category.name (List.filter_sublist s.categories)) hnm
  · intro s tid hnm
    unfold destroy_tag
    split
    · simpa using hnm
    · exact List.Nodup.sublist
        (List.Sublist.map Tag.name (List.filter_sublist s.tags)) hnm

/-- Witness for C9: the sample store already holds Category "Work" and Tag
"Urgent"; re-creating either fails with the uniqueness response and leaves
the store unchanged. -/
theorem taxonomy_name_uniqueness_witness :
    create_category sampleStore (some "Work") = (categoryUniqueResp, sampleStore) ∧
      create_tag sampleStore (some "Urgent") = (tagUniqueResp, sampleStore) :=
  ⟨taxonomy_name_uniqueness.1 sampleStore "Work" (by decide) (by decide)
      ⟨⟨1, "Work"⟩, by decide, rfl⟩,
    taxonomy_name_uniqueness.2.1 sampleStore "Urgent" (by decide) (by decide)
      ⟨⟨1, "Urgent"⟩, by decide, rfl⟩⟩

end Taskmaster
